import Mathlib

/-!
# Verification of the AprendePlay mini-game controllers

Shallow embedding of the two quiz-style mini-game controllers of the
AprendePlay repository: the Color-Quiz controller (`src/pages/ColorsQuiz.tsx`)
and the Syllable-Builder controller (`src/pages/SyllableGame.tsx`), together
with their shared helpers (language-code resolution, phonetic text builder).

Modelling conventions:
* React `useState` component state becomes an explicit state record
  (`QuizState`, `SylState`); each event handler and each scheduled timer
  callback becomes a function from state to state.
* JavaScript's `array.sort(() => Math.random() - 0.5)` produces some
  rearrangement of the array's elements.  Each such random shuffle is
  modelled by passing the resulting list as an argument, constrained by a
  `List.Perm` hypothesis in the theorems.  Likewise the random choice of a
  word or color is modelled by passing the chosen element.
* JavaScript indexing `xs[i]`, which yields `undefined` out of bounds, is
  modelled by `xs[i]?` returning an `Option`; comparison of a string with
  a possibly-undefined entry becomes comparison with `some _`.
* Side effects (speech, sounds, vibration, navigation) are irrelevant to
  game state and are omitted.
-/

/-- Feedback tag of the Color-Quiz controller: `useState<'correct' | 'incorrect' | null>`. -/
inductive QuizFeedback
  | correct
  | incorrect
deriving DecidableEq, Repr

/-- Feedback tag of the Syllable-Builder controller:
`useState<'correct' | 'incorrect' | 'complete' | null>`. -/
inductive SylFeedback
  | correct
  | incorrect
  | complete
deriving DecidableEq, Repr

/-- An entry of the static `colors.json` dataset.  Only the stable `id` is
compared by the controller (`selectedColor.id === targetColor.id`); the other
per-language name fields are opaque payload, represented by `pt`. -/
structure Color where
  id : Nat
  pt : String
deriving DecidableEq, Repr

/-- An entry of the static `words.json` dataset: a stable `id`, a display name
per supported language, and an ordered syllable breakdown per language. -/
structure Word where
  id : Nat
  pt : String
  en : String
  es : String
  syllables_pt : List String
  syllables_en : List String
  syllables_es : List String
deriving DecidableEq, Repr

namespace ColorsQuiz

/-- `getLanguageCode` of `ColorsQuiz.tsx`: the eight-entry UI-language to
speech-locale table, with `'en-US'` as the fallback for unknown tags. -/
def getLanguageCode (lang : String) : String :=
  if lang = "pt" then "pt-BR"
  else if lang = "en" then "en-US"
  else if lang = "es" then "es-ES"
  else if lang = "fr" then "fr-FR"
  else if lang = "de" then "de-DE"
  else if lang = "it" then "it-IT"
  else if lang = "ja" then "ja-JP"
  else if lang = "zh" then "zh-CN"
  else "en-US"

/-- Component state of the Color-Quiz controller (`useState` hooks of
`ColorsQuiz`). -/
structure QuizState where
  score : Nat
  streak : Nat
  targetColor : Option Color
  options : List Color
  feedback : Option QuizFeedback
  isAnswering : Bool
  showParticles : Bool
deriving DecidableEq, Repr

/-- The four options drawn by `generateNewQuiz`: take the first 4 entries of
the shuffled copy `p1` of the dataset, and if the target is absent
force-insert it at slot 0 (`shuffled[0] = randomTarget`). -/
def drawOptions (p1 : List Color) (t : Color) : List Color :=
  let shuffled := p1.take 4
  if t ∈ shuffled then shuffled else shuffled.set 0 t

/-- `generateNewQuiz`: installs the randomly chosen target `t`, clears
feedback, unlocks input, hides particles and installs the final reshuffled
options list `p2`.  The theorems constrain `p2` to be a permutation of
`drawOptions p1 t` for some permutation `p1` of the dataset. -/
def generateNewQuiz (s : QuizState) (t : Color) (p2 : List Color) : QuizState :=
  { s with targetColor := some t, feedback := none, isAnswering := false,
           showParticles := false, options := p2 }

/-- `handleAnswerClick`: ignored while locked or target unset; otherwise lock,
compare ids, and on success add 10 points and extend the streak, on failure
reset the streak. -/
def handleAnswerClick (s : QuizState) (selectedColor : Color) : QuizState :=
  if s.isAnswering then s
  else
    match s.targetColor with
    | none => s
    | some targetColor =>
      if selectedColor.id = targetColor.id then
        { s with isAnswering := true, feedback := some .correct,
                 score := s.score + 10, streak := s.streak + 1,
                 showParticles := true }
      else
        { s with isAnswering := true, feedback := some .incorrect, streak := 0 }

/-- `shuffleOptions`: replaces `options` with a rearrangement `p` of itself
(constrained by a permutation hypothesis in the theorems). -/
def shuffleOptions (s : QuizState) (p : List Color) : QuizState :=
  { s with options := p }

/-- The timer callback scheduled 2.8 s after a wrong answer: clear feedback,
unlock, and reshuffle the options (contents preserved, captured by a
permutation hypothesis on `p`). -/
def incorrectRetry (s : QuizState) (p : List Color) : QuizState :=
  shuffleOptions { s with feedback := none, isAnswering := false } p

/-- The submission guard of `handleAnswerClick`: the round is not locked and
a target is set (`if (isAnswering || !targetColor) return`). -/
def answerAccepted (s : QuizState) : Bool :=
  !s.isAnswering && s.targetColor.isSome

/-- The clicked color matches the target (`selectedColor.id === targetColor.id`). -/
def answerCorrect (s : QuizState) (selectedColor : Color) : Bool :=
  match s.targetColor with
  | some targetColor => selectedColor.id == targetColor.id
  | none => false

/-- A sample five-entry dataset in the shape of `colors.json`, used to
evaluate the theorems on a concrete round. -/
def exampleColors : List Color :=
  [⟨1, "vermelho"⟩, ⟨2, "azul"⟩, ⟨3, "verde"⟩, ⟨4, "amarelo"⟩, ⟨5, "roxo"⟩]

end ColorsQuiz

namespace SyllableGame

/-- `getLanguageCode` of `SyllableGame.tsx`: the three-entry table with
`'pt-BR'` as the fallback for unknown tags. -/
def getLanguageCode (lang : String) : String :=
  if lang = "pt" then "pt-BR"
  else if lang = "en" then "en-US"
  else if lang = "es" then "es-ES"
  else "pt-BR"

/-- `getSyllables`: the language-specific syllable sequence of a word. -/
def getSyllables (w : Word) (lang : String) : List String :=
  if lang = "en" then w.syllables_en
  else if lang = "es" then w.syllables_es
  else w.syllables_pt

/-- `getWordName`: the language-specific display name of a word. -/
def getWordName (w : Word) (lang : String) : String :=
  if lang = "en" then w.en
  else if lang = "es" then w.es
  else w.pt

/-- Component state of the Syllable-Builder controller (`useState` hooks of
`SyllableGame`), plus the ambient i18n UI language read by the handlers. -/
structure SylState where
  score : Nat
  streak : Nat
  currentWord : Option Word
  lang : String
  syllables : List String
  shuffledSyllables : List String
  selectedSyllables : List String
  currentIndex : Nat
  feedback : Option SylFeedback
  showParticles : Bool
deriving DecidableEq, Repr

/-- The state at component mount, before the initial `generateNewWord` effect. -/
def initState (lang : String) : SylState :=
  { score := 0, streak := 0, currentWord := none, lang := lang,
    syllables := [], shuffledSyllables := [], selectedSyllables := [],
    currentIndex := 0, feedback := none, showParticles := false }

/-- `generateNewWord`: installs the randomly chosen word `w`, its
language-specific syllables, a shuffled pool `pool` (constrained to be a
permutation in the theorems), clears the built word, resets the cursor,
feedback and particles. -/
def generateNewWord (s : SylState) (w : Word) (pool : List String) : SylState :=
  { s with currentWord := some w, syllables := getSyllables w s.lang,
           shuffledSyllables := pool, selectedSyllables := [],
           currentIndex := 0, feedback := none, showParticles := false }

/-- `handleSyllableClick`: no-op after completion; a click matching
`syllables[currentIndex]` appends to the built word and removes the clicked
pool entry (`splice(index, 1)`), finishing the round (+10 points, streak +1)
when the word is complete, otherwise advancing the cursor with a transient
`correct` flash; a mismatch only sets `incorrect` feedback and resets the
streak. -/
def handleSyllableClick (s : SylState) (syllable : String) (index : Nat) : SylState :=
  if s.feedback = some .complete then s
  else if s.syllables[s.currentIndex]? = some syllable then
    let newSelected := s.selectedSyllables ++ [syllable]
    let newShuffled := s.shuffledSyllables.eraseIdx index
    if newSelected.length = s.syllables.length then
      { s with selectedSyllables := newSelected, shuffledSyllables := newShuffled,
               feedback := some .complete, score := s.score + 10,
               streak := s.streak + 1, showParticles := true }
    else
      { s with selectedSyllables := newSelected, shuffledSyllables := newShuffled,
               currentIndex := s.currentIndex + 1, feedback := some .correct }
  else
    { s with feedback := some .incorrect, streak := 0 }

/-- The timer callbacks `setFeedback(null)` scheduled 300 ms after a correct
pick and 500 ms after a wrong pick. -/
def clearFeedback (s : SylState) : SylState :=
  { s with feedback := none }

/-- The `useEffect` on `i18n.language`: when a word is loaded, rebuild the
target syllables and the shuffled pool in the new language and discard the
round's progress; score, streak, feedback and the word itself are untouched. -/
def changeLanguage (s : SylState) (newLang : String) (pool : List String) : SylState :=
  match s.currentWord with
  | none => { s with lang := newLang }
  | some w =>
    { s with lang := newLang, syllables := getSyllables w newLang,
             shuffledSyllables := pool, selectedSyllables := [],
             currentIndex := 0 }

/-- The `consonantNames` lookup table of `getPhoneticSpeech`: consonants of
the Portuguese alphabet mapped to their spoken names; absent keys yield
`none` (JavaScript `undefined`, falsy). -/
def consonantNames (c : Char) : Option String :=
  if c = 'B' then some "Bê" else if c = 'C' then some "Cê"
  else if c = 'D' then some "Dê" else if c = 'F' then some "Éfe"
  else if c = 'G' then some "Guê" else if c = 'H' then some "Agá"
  else if c = 'J' then some "Jota" else if c = 'K' then some "Cá"
  else if c = 'L' then some "Éle" else if c = 'M' then some "Ême"
  else if c = 'N' then some "Êne" else if c = 'P' then some "Pê"
  else if c = 'Q' then some "Quê" else if c = 'R' then some "Érre"
  else if c = 'S' then some "Ésse" else if c = 'T' then some "Tê"
  else if c = 'V' then some "Vê" else if c = 'W' then some "Dábliu"
  else if c = 'X' then some "Xis" else if c = 'Z' then some "Zê"
  else none

/-- The `vowels` array of `getPhoneticSpeech`. -/
def vowels : List Char :=
  ['A', 'E', 'I', 'O', 'U', 'Á', 'É', 'Í', 'Ó', 'Ú', 'Ã', 'Õ', 'Â', 'Ê', 'Ô']

/-- JavaScript's Unicode-aware `toUpperCase` on one code point, for the
alphabet this component recognizes: ASCII letters plus the accented
lower-case vowels whose upper-case forms appear in `vowels`.  (Code points
outside this alphabet are unrecognized both before and after upcasing, so
their exact image is irrelevant to `getPhoneticSpeech`.) -/
def jsToUpperChar (c : Char) : Char :=
  if c = 'á' then 'Á' else if c = 'é' then 'É' else if c = 'í' then 'Í'
  else if c = 'ó' then 'Ó' else if c = 'ú' then 'Ú' else if c = 'ã' then 'Ã'
  else if c = 'õ' then 'Õ' else if c = 'â' then 'Â' else if c = 'ê' then 'Ê'
  else if c = 'ô' then 'Ô' else c.toUpper

/-- `syllable.toUpperCase()`, code point by code point. -/
def jsToUpper (s : String) : String :=
  ⟨s.data.map jsToUpperChar⟩

/-- The `for (const char of upper)` loop of `getPhoneticSpeech`: collect the
consonant name when the table has the character, the character itself when it
is a vowel, and skip it otherwise. -/
def phoneticParts : List Char → List String
  | [] => []
  | c :: rest =>
    match consonantNames c with
    | some name => name :: phoneticParts rest
    | none =>
      if c ∈ vowels then c.toString :: phoneticParts rest
      else phoneticParts rest

/-- JavaScript `Array.prototype.join(sep)`. -/
def joinWith (sep : String) : List String → String
  | [] => ""
  | [x] => x
  | x :: y :: rest => x ++ sep ++ joinWith sep (y :: rest)

/-- `getPhoneticSpeech`: the phonetic rendering of a syllable, e.g.
`"BO"` speaks as `"Bê com O, BO"`; with no recognized letters the raw
syllable is returned. -/
def getPhoneticSpeech (syllable : String) : String :=
  let upper := jsToUpper syllable
  let parts := phoneticParts upper.toList
  if parts.length = 0 then syllable
  else if parts.length = 1 then parts.headD "" ++ ", " ++ syllable
  else joinWith " com " parts ++ ", " ++ syllable

/-- The states the Syllable-Builder controller can reach: the mount effect's
`generateNewWord`, syllable clicks on currently displayed pool buttons,
the round-advance `generateNewWord` timer, the transient feedback-clearing
timers, and the language-change effect.  Random draws appear as universally
quantified data constrained by permutation hypotheses; per the loaded-data
contract of the spec (§7), every word's syllable list is non-empty. -/
inductive Reachable : SylState → Prop
  | init (lang : String) (w : Word) (pool : List String)
      (hw : getSyllables w lang ≠ [])
      (hp : pool.Perm (getSyllables w lang)) :
      Reachable (generateNewWord (initState lang) w pool)
  | click (s : SylState) (hs : Reachable s) (i : Nat)
      (hi : i < s.shuffledSyllables.length) :
      Reachable (handleSyllableClick s (s.shuffledSyllables[i]) i)
  | newWord (s : SylState) (hs : Reachable s) (w : Word) (pool : List String)
      (hw : getSyllables w s.lang ≠ [])
      (hp : pool.Perm (getSyllables w s.lang)) :
      Reachable (generateNewWord s w pool)
  | clearFb (s : SylState) (hs : Reachable s)
      (hf : s.feedback = some .correct ∨ s.feedback = some .incorrect) :
      Reachable (clearFeedback s)
  | langChange (s : SylState) (hs : Reachable s) (w : Word)
      (hcw : s.currentWord = some w) (newLang : String) (pool : List String)
      (hw : getSyllables w newLang ≠ [])
      (hp : pool.Perm (getSyllables w newLang)) :
      Reachable (changeLanguage s newLang pool)

/-- The inductive invariant of the Syllable-Builder round: the built word is
the in-order initial segment of the target syllables of its own length; pool
and built word together are a permutation of the target syllables; the target
is non-empty; and while the round is not complete the cursor equals the number
of built syllables, which is strictly below the target length. -/
def SylInv (s : SylState) : Prop :=
  s.selectedSyllables = s.syllables.take s.selectedSyllables.length
  ∧ (s.shuffledSyllables ++ s.selectedSyllables).Perm s.syllables
  ∧ s.syllables ≠ []
  ∧ (s.feedback ≠ some .complete →
      s.currentIndex = s.selectedSyllables.length
      ∧ s.selectedSyllables.length < s.syllables.length)

/-- A syllable click is acted upon: the round is not already complete. -/
def clickActive (s : SylState) : Bool :=
  s.feedback != some .complete

/-- The clicked syllable equals the expected syllable at the cursor. -/
def pickMatches (s : SylState) (syllable : String) : Bool :=
  s.syllables[s.currentIndex]? == some syllable

/-- The pick under consideration would finish the word: one syllable is
missing from the built word. -/
def completesWord (s : SylState) : Bool :=
  s.selectedSyllables.length + 1 == s.syllables.length

/-- One character's contribution to the phonetic parts: the consonant's
spoken name, the vowel itself, or nothing. -/
def charPart (c : Char) : Option String :=
  match consonantNames c with
  | some name => some name
  | none => if c ∈ vowels then some c.toString else none

/-- A sample entry of the `words.json` dataset, used to evaluate the theorems
on concrete rounds. -/
def bolaWord : Word :=
  { id := 1, pt := "BOLA", en := "BALL", es := "PELOTA",
    syllables_pt := ["BO", "LA"], syllables_en := ["BALL"],
    syllables_es := ["PE", "LO", "TA"] }

/-- A freshly generated round on `bolaWord` with pool `["LA", "BO"]`. -/
def exampleFreshRound : SylState :=
  generateNewWord (initState "pt") bolaWord ["LA", "BO"]

/-- The round after correctly picking the first syllable `"BO"` (pool
position 1). -/
def exampleMidRound : SylState :=
  handleSyllableClick exampleFreshRound "BO" 1

lemma perm_click_pool (pool built target : List String) (i : Nat)
    (hi : i < pool.length) (hperm : (pool ++ built).Perm target) :
    (pool.eraseIdx i ++ (built ++ [pool[i]])).Perm target := by
  have hx : List.Perm pool (pool[i] :: pool.eraseIdx i) := by
    have h1 := List.perm_cons_erase (List.getElem_mem hi)
    have h2 := List.erase_getElem (l := pool) (i := i) hi
    exact h1.trans (h2.cons _)
  have e1 : pool.eraseIdx i ++ (built ++ [pool[i]])
      = (pool.eraseIdx i ++ built) ++ [pool[i]] := (List.append_assoc _ _ _).symm
  have p1 : List.Perm ((pool.eraseIdx i ++ built) ++ [pool[i]])
      (pool[i] :: (pool.eraseIdx i ++ built)) := List.perm_append_singleton _ _
  have p2 : List.Perm ((pool[i] :: pool.eraseIdx i) ++ built) (pool ++ built) :=
    hx.symm.append_right built
  rw [e1]
  exact p1.trans (p2.trans hperm)

lemma sylInv_generateNewWord (s : SylState) (w : Word) (pool : List String)
    (hw : getSyllables w s.lang ≠ [])
    (hp : pool.Perm (getSyllables w s.lang)) :
    SylInv (generateNewWord s w pool) := by
  simp only [SylInv, generateNewWord]
  refine ⟨rfl, by simpa using hp, hw, fun _ => ⟨rfl, List.length_pos.2 hw⟩⟩

lemma sylInv_click (s : SylState) (hinv : SylInv s) (i : Nat)
    (hi : i < s.shuffledSyllables.length) :
    SylInv (handleSyllableClick s (s.shuffledSyllables[i]) i) := by
  obtain ⟨hpre, hperm, hne, hact⟩ := hinv
  simp only [handleSyllableClick]
  split
  · exact ⟨hpre, hperm, hne, hact⟩
  · next hnc =>
    obtain ⟨hcur, hlt⟩ := hact hnc
    split
    · next hmatch =>
      have hx : s.syllables[s.selectedSyllables.length]? = some (s.shuffledSyllables[i]) := by
        rw [← hcur]; exact hmatch
      have hval : s.syllables.take (s.selectedSyllables.length + 1)
          = s.selectedSyllables ++ [s.shuffledSyllables[i]] := by
        rw [List.take_succ, hx, ← hpre]
        rfl
      have hlenval : (s.selectedSyllables ++ [s.shuffledSyllables[i]]).length
          = s.selectedSyllables.length + 1 := by
        simp
      split
      · next hfull =>
        refine ⟨?_, ?_, hne, fun h => absurd rfl h⟩
        · rw [hlenval]
          exact hval.symm
        · exact perm_click_pool _ _ _ i hi hperm
      · next hnfull =>
        refine ⟨?_, ?_, hne, fun _ => ⟨?_, ?_⟩⟩
        · rw [hlenval]
          exact hval.symm
        · exact perm_click_pool _ _ _ i hi hperm
        · rw [hlenval, hcur]
        · rw [hlenval]
          refine Nat.lt_of_le_of_ne (Nat.succ_le_of_lt hlt) ?_
          intro hcontra
          exact hnfull (by rw [hlenval, hcontra])
    · next hmis =>
      exact ⟨hpre, hperm, hne, fun _ => ⟨hcur, hlt⟩⟩

lemma sylInv_clearFeedback (s : SylState) (hinv : SylInv s)
    (hf : s.feedback = some .correct ∨ s.feedback = some .incorrect) :
    SylInv (clearFeedback s) := by
  obtain ⟨h1, h2, h3, h4⟩ := hinv
  refine ⟨h1, h2, h3, fun _ => h4 ?_⟩
  rcases hf with h | h <;> simp [h]

lemma sylInv_changeLanguage (s : SylState) (w : Word)
    (hcw : s.currentWord = some w) (newLang : String) (pool : List String)
    (hw : getSyllables w newLang ≠ [])
    (hp : pool.Perm (getSyllables w newLang)) :
    SylInv (changeLanguage s newLang pool) := by
  unfold changeLanguage
  rw [hcw]
  exact ⟨rfl, by simpa using hp, hw, fun _ => ⟨rfl, List.length_pos.2 hw⟩⟩

lemma sylInv_reachable (s : SylState) (hs : Reachable s) : SylInv s := by
  induction hs with
  | init lang w pool hw hp => exact sylInv_generateNewWord _ w pool hw hp
  | click s hs i hi ih => exact sylInv_click s ih i hi
  | newWord s hs w pool hw hp ih => exact sylInv_generateNewWord s w pool hw hp
  | clearFb s hs hf ih => exact sylInv_clearFeedback s ih hf
  | langChange s hs w hcw newLang pool hw hp ih =>
    exact sylInv_changeLanguage s w hcw newLang pool hw hp

end SyllableGame

/-! ## Claim theorems -/

/-- C1 — Syllable-Builder invariant: at every reachable state whose round is
not yet complete, the built word `selectedSyllables` is a strict in-order
initial segment of the target `syllables` (it equals the target's first
`selectedSyllables.length` syllables and is not the whole target), and the
remaining pool `shuffledSyllables` together with the built word is a
permutation (multiset equality) of the target syllables; every operation of
the controller preserves this. -/
theorem syllable_builder_invariant (s : SyllableGame.SylState)
    (hs : SyllableGame.Reachable s)
    (hc : s.feedback ≠ some SylFeedback.complete) :
    (s.selectedSyllables = s.syllables.take s.selectedSyllables.length
      ∧ s.selectedSyllables ≠ s.syllables)
    ∧ (s.shuffledSyllables ++ s.selectedSyllables).Perm s.syllables := by
  obtain ⟨h1, h2, _h3, h4⟩ := SyllableGame.sylInv_reachable s hs
  obtain ⟨_hcur, hlt⟩ := h4 hc
  refine ⟨⟨h1, ?_⟩, h2⟩
  intro he
  rw [he] at hlt
  exact Nat.lt_irrefl _ hlt

/-- Witness for C1: the invariant evaluated on the concrete reachable round
`exampleMidRound` (word BOLA, syllable `"BO"` correctly picked). -/
theorem syllable_builder_invariant_witness :
    (SyllableGame.exampleMidRound.selectedSyllables
        = SyllableGame.exampleMidRound.syllables.take
            SyllableGame.exampleMidRound.selectedSyllables.length
      ∧ SyllableGame.exampleMidRound.selectedSyllables
        ≠ SyllableGame.exampleMidRound.syllables)
    ∧ (SyllableGame.exampleMidRound.shuffledSyllables
        ++ SyllableGame.exampleMidRound.selectedSyllables).Perm
        SyllableGame.exampleMidRound.syllables := by
  have h0 : SyllableGame.Reachable SyllableGame.exampleFreshRound :=
    SyllableGame.Reachable.init "pt" SyllableGame.bolaWord ["LA", "BO"]
      (by decide) (by decide)
  have h1 : SyllableGame.Reachable SyllableGame.exampleMidRound :=
    SyllableGame.Reachable.click SyllableGame.exampleFreshRound h0 1 (by decide)
  exact syllable_builder_invariant SyllableGame.exampleMidRound h1 (by decide)

lemma set_zero_of_not_mem (l : List Color) (t : Color) (hl : l ≠ [])
    (hnd : l.Nodup) (ht : t ∉ l) :
    (l.set 0 t).Nodup ∧ t ∈ l.set 0 t ∧ (l.set 0 t).length = l.length := by
  cases l with
  | nil => cases hl rfl
  | cons a rest =>
    simp only [List.set_cons_zero]
    refine ⟨?_, List.mem_cons_self t rest, by simp⟩
    rw [List.nodup_cons] at hnd ⊢
    exact ⟨fun hmem => ht (List.mem_cons_of_mem a hmem), hnd.2⟩

lemma drawOptions_spec (colors : List Color) (t : Color) (p1 : List Color)
    (hnd : colors.Nodup) (hlen : 4 ≤ colors.length)
    (hp1 : p1.Perm colors) :
    (ColorsQuiz.drawOptions p1 t).length = 4
    ∧ (ColorsQuiz.drawOptions p1 t).Nodup
    ∧ t ∈ ColorsQuiz.drawOptions p1 t := by
  have hnd1 : p1.Nodup := hp1.nodup_iff.2 hnd
  have hlen1 : 4 ≤ p1.length := by rw [hp1.length_eq]; exact hlen
  have htk_len : (p1.take 4).length = 4 := by
    rw [List.length_take]
    exact Nat.min_eq_left hlen1
  have htk_nd : (p1.take 4).Nodup := hnd1.sublist (List.take_sublist 4 p1)
  unfold ColorsQuiz.drawOptions
  by_cases hmem : t ∈ p1.take 4
  · rw [if_pos hmem]
    exact ⟨htk_len, htk_nd, hmem⟩
  · rw [if_neg hmem]
    have hne : p1.take 4 ≠ [] := by
      intro hcontra
      rw [hcontra] at htk_len
      exact absurd htk_len (by decide)
    obtain ⟨h1, h2, h3⟩ := set_zero_of_not_mem (p1.take 4) t hne htk_nd hmem
    exact ⟨by rw [h3, htk_len], h1, h2⟩

/-- C2 — Color-Quiz round generation: for a dataset of at least 4 distinct
colors, after `generateNewQuiz` (with the two random shuffles captured by the
permutation hypotheses on `p1` and `p2`) the target is set (never null while
the round is active), and the options are exactly 4 pairwise-distinct colors
among which the target always appears. -/
theorem quiz_round_generation (colors : List Color) (s : ColorsQuiz.QuizState)
    (t : Color) (p1 p2 : List Color)
    (hnd : colors.Nodup) (hlen : 4 ≤ colors.length) (_ht : t ∈ colors)
    (hp1 : p1.Perm colors) (hp2 : p2.Perm (ColorsQuiz.drawOptions p1 t)) :
    (ColorsQuiz.generateNewQuiz s t p2).targetColor = some t
    ∧ (ColorsQuiz.generateNewQuiz s t p2).targetColor ≠ none
    ∧ (ColorsQuiz.generateNewQuiz s t p2).options.length = 4
    ∧ (ColorsQuiz.generateNewQuiz s t p2).options.Nodup
    ∧ t ∈ (ColorsQuiz.generateNewQuiz s t p2).options := by
  obtain ⟨hd1, hd2, hd3⟩ := drawOptions_spec colors t p1 hnd hlen hp1
  refine ⟨rfl, by simp [ColorsQuiz.generateNewQuiz], ?_, ?_, ?_⟩
  · show p2.length = 4
    rw [hp2.length_eq]
    exact hd1
  · show p2.Nodup
    exact hp2.nodup_iff.2 hd2
  · show t ∈ p2
    exact hp2.mem_iff.2 hd3

/-- Witness for C2: the round generated from the concrete five-color dataset
`exampleColors` with target id 5, first shuffle reversing the dataset and
second shuffle reversing the draw. -/
theorem quiz_round_generation_witness :
    (ColorsQuiz.generateNewQuiz
        { score := 0, streak := 0, targetColor := none, options := [],
          feedback := none, isAnswering := false, showParticles := false }
        ⟨5, "roxo"⟩ [⟨2, "azul"⟩, ⟨3, "verde"⟩, ⟨4, "amarelo"⟩, ⟨5, "roxo"⟩]).targetColor
      = some ⟨5, "roxo"⟩
    ∧ (ColorsQuiz.generateNewQuiz
        { score := 0, streak := 0, targetColor := none, options := [],
          feedback := none, isAnswering := false, showParticles := false }
        ⟨5, "roxo"⟩ [⟨2, "azul"⟩, ⟨3, "verde"⟩, ⟨4, "amarelo"⟩, ⟨5, "roxo"⟩]).targetColor
      ≠ none
    ∧ (ColorsQuiz.generateNewQuiz
        { score := 0, streak := 0, targetColor := none, options := [],
          feedback := none, isAnswering := false, showParticles := false }
        ⟨5, "roxo"⟩ [⟨2, "azul"⟩, ⟨3, "verde"⟩, ⟨4, "amarelo"⟩, ⟨5, "roxo"⟩]).options.length
      = 4
    ∧ (ColorsQuiz.generateNewQuiz
        { score := 0, streak := 0, targetColor := none, options := [],
          feedback := none, isAnswering := false, showParticles := false }
        ⟨5, "roxo"⟩ [⟨2, "azul"⟩, ⟨3, "verde"⟩, ⟨4, "amarelo"⟩, ⟨5, "roxo"⟩]).options.Nodup
    ∧ (⟨5, "roxo"⟩ : Color) ∈ (ColorsQuiz.generateNewQuiz
        { score := 0, streak := 0, targetColor := none, options := [],
          feedback := none, isAnswering := false, showParticles := false }
        ⟨5, "roxo"⟩ [⟨2, "azul"⟩, ⟨3, "verde"⟩, ⟨4, "amarelo"⟩, ⟨5, "roxo"⟩]).options :=
  quiz_round_generation ColorsQuiz.exampleColors
    { score := 0, streak := 0, targetColor := none, options := [],
      feedback := none, isAnswering := false, showParticles := false }
    ⟨5, "roxo"⟩
    [⟨5, "roxo"⟩, ⟨4, "amarelo"⟩, ⟨3, "verde"⟩, ⟨2, "azul"⟩, ⟨1, "vermelho"⟩]
    [⟨2, "azul"⟩, ⟨3, "verde"⟩, ⟨4, "amarelo"⟩, ⟨5, "roxo"⟩]
    (by decide) (by decide) (by decide) (by decide) (by decide)

/-- C3 — Score discipline in both controllers: every event either leaves the
score unchanged or adds exactly 10, the latter exactly on a fully-correct
round (accepted correct answer in the Color-Quiz; word-completing pick in the
Syllable-Builder); all other events — wrong submissions, guarded-out clicks,
non-final correct picks, round regeneration, feedback timers, retry
reshuffles, language changes — leave it unchanged, so the score never
decreases. -/
theorem score_update_rule :
    (∀ (s : ColorsQuiz.QuizState) (c : Color),
      (ColorsQuiz.handleAnswerClick s c).score =
        if ColorsQuiz.answerAccepted s && ColorsQuiz.answerCorrect s c
        then s.score + 10 else s.score)
    ∧ (∀ (s : ColorsQuiz.QuizState) (c : Color),
        s.score ≤ (ColorsQuiz.handleAnswerClick s c).score)
    ∧ (∀ (s : ColorsQuiz.QuizState) (t : Color) (p : List Color),
        (ColorsQuiz.generateNewQuiz s t p).score = s.score)
    ∧ (∀ (s : ColorsQuiz.QuizState) (p : List Color),
        (ColorsQuiz.incorrectRetry s p).score = s.score)
    ∧ (∀ (s : SyllableGame.SylState) (syllable : String) (i : Nat),
      (SyllableGame.handleSyllableClick s syllable i).score =
        if SyllableGame.clickActive s && SyllableGame.pickMatches s syllable
            && SyllableGame.completesWord s
        then s.score + 10 else s.score)
    ∧ (∀ (s : SyllableGame.SylState) (syllable : String) (i : Nat),
        s.score ≤ (SyllableGame.handleSyllableClick s syllable i).score)
    ∧ (∀ (s : SyllableGame.SylState) (w : Word) (pool : List String),
        (SyllableGame.generateNewWord s w pool).score = s.score)
    ∧ (∀ (s : SyllableGame.SylState), (SyllableGame.clearFeedback s).score = s.score)
    ∧ (∀ (s : SyllableGame.SylState) (newLang : String) (pool : List String),
        (SyllableGame.changeLanguage s newLang pool).score = s.score) := by
  refine ⟨?_, ?_, fun s t p => rfl, fun s p => rfl, ?_, ?_,
    fun s w pool => rfl, fun s => rfl, ?_⟩
  · intro s c
    unfold ColorsQuiz.handleAnswerClick ColorsQuiz.answerAccepted ColorsQuiz.answerCorrect
    cases ht : s.targetColor with
    | none => cases hA : s.isAnswering <;> simp [ht, hA]
    | some t =>
      cases hA : s.isAnswering <;>
        by_cases hid : c.id = t.id <;>
          simp [ht, hA, hid]
  · intro s c
    unfold ColorsQuiz.handleAnswerClick
    cases ht : s.targetColor with
    | none => cases hA : s.isAnswering <;> simp [ht, hA]
    | some t =>
      cases hA : s.isAnswering <;>
        by_cases hid : c.id = t.id <;>
          simp [ht, hA, hid]
  · intro s syllable i
    unfold SyllableGame.handleSyllableClick SyllableGame.clickActive
      SyllableGame.pickMatches SyllableGame.completesWord
    by_cases h1 : s.feedback = some SylFeedback.complete
    · simp [h1]
    · by_cases h2 : s.syllables[s.currentIndex]? = some syllable
      · by_cases h3 : s.selectedSyllables.length + 1 = s.syllables.length
        · simp [h1, h2, h3]
        · simp [h1, h2, h3]
      · simp [h1, h2]
  · intro s syllable i
    unfold SyllableGame.handleSyllableClick
    by_cases h1 : s.feedback = some SylFeedback.complete
    · simp [h1]
    · by_cases h2 : s.syllables[s.currentIndex]? = some syllable
      · by_cases h3 : s.selectedSyllables.length + 1 = s.syllables.length
        · simp [h1, h2, h3]
        · simp [h1, h2, h3]
      · simp [h1, h2]
  · intro s newLang pool
    unfold SyllableGame.changeLanguage
    rcases hcw : s.currentWord with _ | w <;> simp [hcw]

/-- C4 — Streak discipline in both controllers: an accepted incorrect
submission sets the streak to exactly 0, a fully-correct round increments it
by exactly 1, and every other event (guarded-out clicks, non-final correct
picks, round regeneration, feedback timers, retry reshuffles, language
changes) leaves it unchanged. -/
theorem streak_update_rule :
    (∀ (s : ColorsQuiz.QuizState) (c : Color),
      (ColorsQuiz.handleAnswerClick s c).streak =
        if ColorsQuiz.answerAccepted s then
          (if ColorsQuiz.answerCorrect s c then s.streak + 1 else 0)
        else s.streak)
    ∧ (∀ (s : ColorsQuiz.QuizState) (t : Color) (p : List Color),
        (ColorsQuiz.generateNewQuiz s t p).streak = s.streak)
    ∧ (∀ (s : ColorsQuiz.QuizState) (p : List Color),
        (ColorsQuiz.incorrectRetry s p).streak = s.streak)
    ∧ (∀ (s : SyllableGame.SylState) (syllable : String) (i : Nat),
      (SyllableGame.handleSyllableClick s syllable i).streak =
        if SyllableGame.clickActive s then
          (if SyllableGame.pickMatches s syllable then
            (if SyllableGame.completesWord s then s.streak + 1 else s.streak)
          else 0)
        else s.streak)
    ∧ (∀ (s : SyllableGame.SylState) (w : Word) (pool : List String),
        (SyllableGame.generateNewWord s w pool).streak = s.streak)
    ∧ (∀ (s : SyllableGame.SylState), (SyllableGame.clearFeedback s).streak = s.streak)
    ∧ (∀ (s : SyllableGame.SylState) (newLang : String) (pool : List String),
        (SyllableGame.changeLanguage s newLang pool).streak = s.streak) := by
  refine ⟨?_, fun s t p => rfl, fun s p => rfl, ?_, fun s w pool => rfl,
    fun s => rfl, ?_⟩
  · intro s c
    unfold ColorsQuiz.handleAnswerClick ColorsQuiz.answerAccepted ColorsQuiz.answerCorrect
    cases ht : s.targetColor with
    | none => cases hA : s.isAnswering <;> simp [ht, hA]
    | some t =>
      cases hA : s.isAnswering <;>
        by_cases hid : c.id = t.id <;>
          simp [ht, hA, hid]
  · intro s syllable i
    unfold SyllableGame.handleSyllableClick SyllableGame.clickActive
      SyllableGame.pickMatches SyllableGame.completesWord
    by_cases h1 : s.feedback = some SylFeedback.complete
    · simp [h1]
    · by_cases h2 : s.syllables[s.currentIndex]? = some syllable
      · by_cases h3 : s.selectedSyllables.length + 1 = s.syllables.length
        · simp [h1, h2, h3]
        · simp [h1, h2, h3]
      · simp [h1, h2]
  · intro s newLang pool
    unfold SyllableGame.changeLanguage
    rcases hcw : s.currentWord with _ | w <;> simp [hcw]

/-- C5 — Order sensitivity of the Syllable-Builder: while the round is not
complete, clicking a syllable all of whose occurrences in the target word lie
strictly after the cursor position (in particular a structurally valid
syllable that is merely out of order) is treated as wrong: the state changes
only by setting `incorrect` feedback and resetting the streak; the built
word, pool and cursor are untouched. -/
theorem out_of_order_pick_rejected (s : SyllableGame.SylState)
    (syllable : String) (i : Nat)
    (hc : s.feedback ≠ some SylFeedback.complete)
    (h : ∀ j : Nat, s.syllables[j]? = some syllable → s.currentIndex < j) :
    SyllableGame.handleSyllableClick s syllable i
      = { s with feedback := some SylFeedback.incorrect, streak := 0 } := by
  have hmis : ¬ s.syllables[s.currentIndex]? = some syllable := by
    intro hcontra
    exact Nat.lt_irrefl _ (h _ hcontra)
  simp [SyllableGame.handleSyllableClick, hc, hmis]

/-- Witness for C5: in the fresh BOLA round (target `["BO", "LA"]`, cursor 0)
the pool syllable `"LA"` occurs in the target only at position 1 > 0, and
clicking it yields exactly the incorrect-feedback state. -/
theorem out_of_order_pick_rejected_witness :
    SyllableGame.handleSyllableClick SyllableGame.exampleFreshRound "LA" 0
      = { SyllableGame.exampleFreshRound with
          feedback := some SylFeedback.incorrect, streak := 0 } := by
  refine out_of_order_pick_rejected SyllableGame.exampleFreshRound "LA" 0
    (by decide) ?_
  intro j hj
  match j with
  | 0 => exact absurd hj (by decide)
  | 1 => exact Nat.zero_lt_one
  | j + 2 =>
    have hnone : SyllableGame.exampleFreshRound.syllables[j + 2]? = none :=
      List.getElem?_eq_none (Nat.le_add_left 2 j)
    rw [hnone] at hj
    simp at hj

/-- C6 — Mismatch frame property: an accepted wrong submission never changes
the score and never advances the round.  Color-Quiz: the wrong click keeps
score, target and options, and a repeated click is absorbed by the lock; the
2.8 s retry callback restores the unlocked state with the same score and
target and with the options merely permuted.  Syllable-Builder: a wrong pick
keeps score, cursor, built word, pool and word, and repeating the same wrong
pick reproduces the very same state. -/
theorem mismatch_frame :
    (∀ (s : ColorsQuiz.QuizState) (c t : Color),
        s.isAnswering = false → s.targetColor = some t → c.id ≠ t.id →
      (ColorsQuiz.handleAnswerClick s c).score = s.score
      ∧ (ColorsQuiz.handleAnswerClick s c).targetColor = s.targetColor
      ∧ (ColorsQuiz.handleAnswerClick s c).options = s.options
      ∧ ColorsQuiz.handleAnswerClick (ColorsQuiz.handleAnswerClick s c) c
          = ColorsQuiz.handleAnswerClick s c)
    ∧ (∀ (s : ColorsQuiz.QuizState) (c t : Color) (p : List Color),
        s.isAnswering = false → s.targetColor = some t → c.id ≠ t.id →
        p.Perm (ColorsQuiz.handleAnswerClick s c).options →
      (ColorsQuiz.incorrectRetry (ColorsQuiz.handleAnswerClick s c) p).options.Perm s.options
      ∧ (ColorsQuiz.incorrectRetry (ColorsQuiz.handleAnswerClick s c) p).score = s.score
      ∧ (ColorsQuiz.incorrectRetry (ColorsQuiz.handleAnswerClick s c) p).targetColor
          = s.targetColor
      ∧ (ColorsQuiz.incorrectRetry (ColorsQuiz.handleAnswerClick s c) p).isAnswering = false)
    ∧ (∀ (s : SyllableGame.SylState) (syllable : String) (i : Nat),
        s.feedback ≠ some SylFeedback.complete →
        s.syllables[s.currentIndex]? ≠ some syllable →
      (SyllableGame.handleSyllableClick s syllable i).score = s.score
      ∧ (SyllableGame.handleSyllableClick s syllable i).currentIndex = s.currentIndex
      ∧ (SyllableGame.handleSyllableClick s syllable i).selectedSyllables
          = s.selectedSyllables
      ∧ (SyllableGame.handleSyllableClick s syllable i).shuffledSyllables
          = s.shuffledSyllables
      ∧ (SyllableGame.handleSyllableClick s syllable i).currentWord = s.currentWord
      ∧ SyllableGame.handleSyllableClick
            (SyllableGame.handleSyllableClick s syllable i) syllable i
          = SyllableGame.handleSyllableClick s syllable i) := by
  refine ⟨?_, ?_, ?_⟩
  · intro s c t hA ht hid
    unfold ColorsQuiz.handleAnswerClick
    simp [hA, ht, hid]
  · intro s c t p hA ht hid hp
    have hclick : ColorsQuiz.handleAnswerClick s c
        = { s with
              isAnswering := true,
              feedback := some QuizFeedback.incorrect,
              streak := 0 } := by
      unfold ColorsQuiz.handleAnswerClick
      simp [hA, ht, hid]
    rw [hclick] at hp ⊢
    exact ⟨hp, rfl, rfl, rfl⟩
  · intro s syllable i hc hmis
    have hclick : SyllableGame.handleSyllableClick s syllable i
        = { s with feedback := some SylFeedback.incorrect, streak := 0 } := by
      simp [SyllableGame.handleSyllableClick, hc, hmis]
    rw [hclick]
    refine ⟨rfl, rfl, rfl, rfl, rfl, ?_⟩
    simp [SyllableGame.handleSyllableClick, hmis]

/-- Witness for C6: the three frame properties evaluated on concrete wrong
submissions — clicking blue when the target is red in a four-option quiz
round, and clicking `"LA"` first in the fresh BOLA round. -/
theorem mismatch_frame_witness :
    ((ColorsQuiz.handleAnswerClick
        { score := 20, streak := 2, targetColor := some ⟨1, "vermelho"⟩,
          options := [⟨2, "azul"⟩, ⟨1, "vermelho"⟩, ⟨3, "verde"⟩, ⟨4, "amarelo"⟩],
          feedback := none, isAnswering := false, showParticles := false }
        ⟨2, "azul"⟩).score = 20
      ∧ (ColorsQuiz.incorrectRetry
          (ColorsQuiz.handleAnswerClick
            { score := 20, streak := 2, targetColor := some ⟨1, "vermelho"⟩,
              options := [⟨2, "azul"⟩, ⟨1, "vermelho"⟩, ⟨3, "verde"⟩, ⟨4, "amarelo"⟩],
              feedback := none, isAnswering := false, showParticles := false }
            ⟨2, "azul"⟩)
          [⟨4, "amarelo"⟩, ⟨3, "verde"⟩, ⟨1, "vermelho"⟩, ⟨2, "azul"⟩]).targetColor
        = some ⟨1, "vermelho"⟩)
    ∧ (SyllableGame.handleSyllableClick
        (SyllableGame.handleSyllableClick SyllableGame.exampleFreshRound "LA" 0) "LA" 0
      = SyllableGame.handleSyllableClick SyllableGame.exampleFreshRound "LA" 0) := by
  have hq := mismatch_frame.1
    { score := 20, streak := 2, targetColor := some ⟨1, "vermelho"⟩,
      options := [⟨2, "azul"⟩, ⟨1, "vermelho"⟩, ⟨3, "verde"⟩, ⟨4, "amarelo"⟩],
      feedback := none, isAnswering := false, showParticles := false }
    ⟨2, "azul"⟩ ⟨1, "vermelho"⟩ rfl rfl (by decide)
  have hr := mismatch_frame.2.1
    { score := 20, streak := 2, targetColor := some ⟨1, "vermelho"⟩,
      options := [⟨2, "azul"⟩, ⟨1, "vermelho"⟩, ⟨3, "verde"⟩, ⟨4, "amarelo"⟩],
      feedback := none, isAnswering := false, showParticles := false }
    ⟨2, "azul"⟩ ⟨1, "vermelho"⟩
    [⟨4, "amarelo"⟩, ⟨3, "verde"⟩, ⟨1, "vermelho"⟩, ⟨2, "azul"⟩]
    rfl rfl (by decide) (by decide)
  have hs := mismatch_frame.2.2 SyllableGame.exampleFreshRound "LA" 0
    (by decide) (by decide)
  exact ⟨⟨hq.1, hr.2.2.1⟩, hs.2.2.2.2.2⟩

/-- C7 — Color-Quiz input guard: while the round is resolving
(`isAnswering`) or before any target is set, `handleAnswerClick` is a
complete no-op — the state is returned unchanged, so concurrent rapid input
is rejected rather than queued. -/
theorem answer_click_guard (s : ColorsQuiz.QuizState) (c : Color)
    (h : s.isAnswering = true ∨ s.targetColor = none) :
    ColorsQuiz.handleAnswerClick s c = s := by
  unfold ColorsQuiz.handleAnswerClick
  rcases h with h | h
  · simp [h]
  · cases hA : s.isAnswering <;> simp [h, hA]

/-- Witness for C7: a locked round with a pending target ignores a correct
click. -/
theorem answer_click_guard_witness :
    ColorsQuiz.handleAnswerClick
      { score := 10, streak := 1, targetColor := some ⟨1, "vermelho"⟩,
        options := [⟨2, "azul"⟩, ⟨1, "vermelho"⟩, ⟨3, "verde"⟩, ⟨4, "amarelo"⟩],
        feedback := some QuizFeedback.incorrect, isAnswering := true,
        showParticles := false }
      ⟨1, "vermelho"⟩
    = { score := 10, streak := 1, targetColor := some ⟨1, "vermelho"⟩,
        options := [⟨2, "azul"⟩, ⟨1, "vermelho"⟩, ⟨3, "verde"⟩, ⟨4, "amarelo"⟩],
        feedback := some QuizFeedback.incorrect, isAnswering := true,
        showParticles := false } :=
  answer_click_guard _ ⟨1, "vermelho"⟩ (Or.inl rfl)

lemma phoneticParts_eq_filterMap (l : List Char) :
    SyllableGame.phoneticParts l = l.filterMap SyllableGame.charPart := by
  induction l with
  | nil => rfl
  | cons c rest ih =>
    cases h : SyllableGame.consonantNames c with
    | some name =>
      simp [SyllableGame.phoneticParts, SyllableGame.charPart,
        List.filterMap_cons, h, ih]
    | none =>
      by_cases hv : c ∈ SyllableGame.vowels <;>
        simp [SyllableGame.phoneticParts, SyllableGame.charPart,
          List.filterMap_cons, h, hv, ih]

/-- C8 — `getPhoneticSpeech` is a pure function of the syllable string,
determined by the fixed per-character tables: it equals the per-character
accumulation (`filterMap charPart`, i.e. consonants replaced by their spoken
names and vowels kept) over the upper-cased syllable, joined with the
connective `" com "` and suffixed with the raw syllable — and it returns the
raw syllable unchanged exactly when no character is recognized. -/
theorem phonetic_speech_characterization (syllable : String) :
    SyllableGame.getPhoneticSpeech syllable =
      if (SyllableGame.jsToUpper syllable).toList.filterMap SyllableGame.charPart = [] then
        syllable
      else
        SyllableGame.joinWith " com "
            ((SyllableGame.jsToUpper syllable).toList.filterMap SyllableGame.charPart)
          ++ ", " ++ syllable := by
  simp only [SyllableGame.getPhoneticSpeech, phoneticParts_eq_filterMap]
  cases hq : (SyllableGame.jsToUpper syllable).toList.filterMap SyllableGame.charPart with
  | nil => simp
  | cons x rest =>
    cases rest with
    | nil => simp [SyllableGame.joinWith]
    | cons y rest2 => simp

/-- C9 — Language-code resolution: each controller resolves UI language tags
through its own enumerated table — the Color-Quiz maps its eight known tags
and falls back to `"en-US"` on every other tag, while the Syllable-Builder
maps its three known tags and falls back to `"pt-BR"` — so a tag such as
`"fr"` resolves to different locales in the two controllers. -/
theorem language_code_resolution :
    (∀ lang : String, lang ≠ "pt" → lang ≠ "en" → lang ≠ "es" → lang ≠ "fr" →
      lang ≠ "de" → lang ≠ "it" → lang ≠ "ja" → lang ≠ "zh" →
      ColorsQuiz.getLanguageCode lang = "en-US")
    ∧ (∀ lang : String, lang ≠ "pt" → lang ≠ "en" → lang ≠ "es" →
      SyllableGame.getLanguageCode lang = "pt-BR")
    ∧ ColorsQuiz.getLanguageCode "pt" = "pt-BR"
    ∧ ColorsQuiz.getLanguageCode "en" = "en-US"
    ∧ ColorsQuiz.getLanguageCode "es" = "es-ES"
    ∧ ColorsQuiz.getLanguageCode "fr" = "fr-FR"
    ∧ ColorsQuiz.getLanguageCode "de" = "de-DE"
    ∧ ColorsQuiz.getLanguageCode "it" = "it-IT"
    ∧ ColorsQuiz.getLanguageCode "ja" = "ja-JP"
    ∧ ColorsQuiz.getLanguageCode "zh" = "zh-CN"
    ∧ SyllableGame.getLanguageCode "pt" = "pt-BR"
    ∧ SyllableGame.getLanguageCode "en" = "en-US"
    ∧ SyllableGame.getLanguageCode "es" = "es-ES"
    ∧ SyllableGame.getLanguageCode "fr" = "pt-BR"
    ∧ ColorsQuiz.getLanguageCode "fr" ≠ SyllableGame.getLanguageCode "fr" := by
  refine ⟨?_, ?_, by decide, by decide, by decide, by decide, by decide,
    by decide, by decide, by decide, by decide, by decide, by decide,
    by decide, by decide⟩
  · intro lang h1 h2 h3 h4 h5 h6 h7 h8
    simp [ColorsQuiz.getLanguageCode, h1, h2, h3, h4, h5, h6, h7, h8]
  · intro lang h1 h2 h3
    simp [SyllableGame.getLanguageCode, h1, h2, h3]

/-- Witness for C9: the unknown tag `"de-CH"` falls back to each
controller's default locale. -/
theorem language_code_resolution_witness :
    ColorsQuiz.getLanguageCode "de-CH" = "en-US"
    ∧ SyllableGame.getLanguageCode "de-CH" = "pt-BR" :=
  ⟨language_code_resolution.1 "de-CH" (by decide) (by decide) (by decide)
      (by decide) (by decide) (by decide) (by decide) (by decide),
    language_code_resolution.2.1 "de-CH" (by decide) (by decide) (by decide)⟩

/-- C10 — Language change during a Syllable-Builder round: the effect watching
the UI language discards the round's progress — built word cleared, cursor
reset to 0, target syllables and pool rebuilt from the current word's
syllables in the new language (the pool a shuffled copy of them) — while the
word's identity, score, streak and feedback are left unchanged. -/
theorem language_change_resets_round (s : SyllableGame.SylState) (w : Word)
    (hcw : s.currentWord = some w) (newLang : String) (pool : List String)
    (hp : pool.Perm (SyllableGame.getSyllables w newLang)) :
    (SyllableGame.changeLanguage s newLang pool).selectedSyllables = []
    ∧ (SyllableGame.changeLanguage s newLang pool).currentIndex = 0
    ∧ (SyllableGame.changeLanguage s newLang pool).syllables
        = SyllableGame.getSyllables w newLang
    ∧ (SyllableGame.changeLanguage s newLang pool).shuffledSyllables.Perm
        (SyllableGame.changeLanguage s newLang pool).syllables
    ∧ (SyllableGame.changeLanguage s newLang pool).currentWord = s.currentWord
    ∧ (SyllableGame.changeLanguage s newLang pool).score = s.score
    ∧ (SyllableGame.changeLanguage s newLang pool).streak = s.streak
    ∧ (SyllableGame.changeLanguage s newLang pool).feedback = s.feedback := by
  unfold SyllableGame.changeLanguage
  rw [hcw]
  exact ⟨rfl, rfl, rfl, hp, rfl, rfl, rfl, rfl⟩

/-- Witness for C10: switching the mid-BOLA round from Portuguese to Spanish
rebuilds the round from `["PE", "LO", "TA"]` with progress discarded and
score, streak, feedback and word untouched. -/
theorem language_change_resets_round_witness :
    (SyllableGame.changeLanguage SyllableGame.exampleMidRound "es"
        ["TA", "PE", "LO"]).selectedSyllables = []
    ∧ (SyllableGame.changeLanguage SyllableGame.exampleMidRound "es"
        ["TA", "PE", "LO"]).currentIndex = 0
    ∧ (SyllableGame.changeLanguage SyllableGame.exampleMidRound "es"
        ["TA", "PE", "LO"]).syllables
        = SyllableGame.getSyllables SyllableGame.bolaWord "es"
    ∧ (SyllableGame.changeLanguage SyllableGame.exampleMidRound "es"
        ["TA", "PE", "LO"]).shuffledSyllables.Perm
        (SyllableGame.changeLanguage SyllableGame.exampleMidRound "es"
          ["TA", "PE", "LO"]).syllables
    ∧ (SyllableGame.changeLanguage SyllableGame.exampleMidRound "es"
        ["TA", "PE", "LO"]).currentWord = SyllableGame.exampleMidRound.currentWord
    ∧ (SyllableGame.changeLanguage SyllableGame.exampleMidRound "es"
        ["TA", "PE", "LO"]).score = SyllableGame.exampleMidRound.score
    ∧ (SyllableGame.changeLanguage SyllableGame.exampleMidRound "es"
        ["TA", "PE", "LO"]).streak = SyllableGame.exampleMidRound.streak
    ∧ (SyllableGame.changeLanguage SyllableGame.exampleMidRound "es"
        ["TA", "PE", "LO"]).feedback = SyllableGame.exampleMidRound.feedback :=
  language_change_resets_round SyllableGame.exampleMidRound SyllableGame.bolaWord
    (by decide) "es" ["TA", "PE", "LO"] (by decide)
